import Mathlib

/-!
# Verification of the invoice-doc document generation backend

Shallow embedding of the PDF/document generation services of the
`invoice-doc` repository (FastAPI backend under `backend/app`), together
with theorems settling the specification claims about them.

Embedded components:
* `EnhancedPDFService` (`app/services/enhanced_pdf_service.py`):
  asset embedding (`_process_assets`), branding defaults
  (`_get_branding_config`), stylesheet generation (`_generate_css`),
  the Jinja2 rendering dispatch of `generate_pdf`, and the custom
  filters (`_format_currency`, `_b64_encode_filter`).
* `StorageService` (`app/services/storage_service.py`):
  `save_asset`, `save_document`, `_get_mime_type`, with the MD5-based
  content-hash naming scheme.
* The two generation endpoints (`templates_router.generate_document`,
  `documents.generate_invoice`) as functions over an abstract
  environment of fallible pipeline steps.

Bytes are modelled as `List Nat` with values `< 256`; machine words in
MD5 are `Nat` reduced `% 2 ^ 32`; fallible Python code returns
`Except`/`Option`.
-/

deriving instance DecidableEq for Except

namespace InvoiceDoc

/-! ## Base64 (Python `base64.b64encode`, RFC 4648)

`_process_assets` encodes raw file bytes with `base64.b64encode` and
builds `data:<mime>;base64,<payload>` URLs.  `b64encodeL` is standard
base64 of a byte list; `b64decodeL` is the standard RFC 4648 inverse
(the repository itself only encodes; the decoder is the reference
inverse used to state the round-trip property). -/

def b64Alphabet : List Char :=
  "ABCDEFGHIJKLMNOPQRSTUVWXYZabcdefghijklmnopqrstuvwxyz0123456789+/".data

/-- Character for a sextet value (`< 64`). -/
def b64Char (n : Nat) : Char := b64Alphabet.getD n '='

/-- Sextet value of a base64 alphabet character. -/
def b64Index (c : Char) : Nat := b64Alphabet.indexOf c

/-- Base64 encoding of a byte list, three bytes to four characters,
padded with `=` exactly as `base64.b64encode` does. -/
def b64encodeL : List Nat → List Char
  | [] => []
  | [a] => [b64Char (a / 4), b64Char (a % 4 * 16), '=', '=']
  | [a, b] => [b64Char (a / 4), b64Char (a % 4 * 16 + b / 16), b64Char (b % 16 * 4), '=']
  | a :: b :: c :: rest =>
      b64Char (a / 4) :: b64Char (a % 4 * 16 + b / 16) :: b64Char (b % 16 * 4 + c / 64) ::
        b64Char (c % 64) :: b64encodeL rest

/-- Standard base64 decoding (strict RFC 4648: four-character groups,
`=` padding only at the end). -/
def b64decodeL : List Char → Option (List Nat)
  | [] => some []
  | w :: x :: y :: z :: rest =>
      if z = '=' then
        if rest = [] then
          if y = '=' then
            some [b64Index w * 4 + b64Index x / 16]
          else
            some [b64Index w * 4 + b64Index x / 16, b64Index x % 16 * 16 + b64Index y / 4]
        else none
      else
        (b64decodeL rest).map fun tl =>
          (b64Index w * 4 + b64Index x / 16) :: (b64Index x % 16 * 16 + b64Index y / 4) ::
            ((b64Index y % 4 * 64 + b64Index z) :: tl)
  | _ => none

theorem b64Index_b64Char : ∀ n < 64, b64Index (b64Char n) = n := by decide

theorem b64Char_ne_pad : ∀ n < 64, b64Char n ≠ '=' := by decide

theorem b64_roundtrip : ∀ bs : List Nat, (∀ x ∈ bs, x < 256) →
    b64decodeL (b64encodeL bs) = some bs
  | [], _ => rfl
  | [a], h => by
      have ha : a < 256 := h a (by simp)
      simp only [b64encodeL, b64decodeL, if_true]
      rw [b64Index_b64Char _ (by omega), b64Index_b64Char _ (by omega)]
      simp only [Option.some.injEq, List.cons.injEq, and_true]
      omega
  | [a, b], h => by
      have ha : a < 256 := h a (by simp)
      have hb : b < 256 := h b (by simp)
      simp only [b64encodeL, b64decodeL, if_true]
      rw [if_neg (b64Char_ne_pad _ (by omega)),
        b64Index_b64Char _ (by omega), b64Index_b64Char _ (by omega),
        b64Index_b64Char _ (by omega)]
      simp only [Option.some.injEq, List.cons.injEq, and_true]
      omega
  | a :: b :: c :: rest, h => by
      have ha : a < 256 := h a (by simp)
      have hb : b < 256 := h b (by simp)
      have hc : c < 256 := h c (by simp)
      have ih := b64_roundtrip rest (fun x hx => h x (by simp [hx]))
      simp only [b64encodeL, b64decodeL]
      rw [if_neg (b64Char_ne_pad _ (by omega)), ih]
      simp only [Option.map_some', Option.some.injEq, List.cons.injEq, and_true]
      rw [b64Index_b64Char _ (by omega), b64Index_b64Char _ (by omega),
        b64Index_b64Char _ (by omega), b64Index_b64Char _ (by omega)]
      omega

/-- `_process_assets` line 124: `data_url = f"data:{mime_type};base64,{base64_data}"`. -/
def dataUrl (mime : String) (content : List Nat) : String :=
  "data:" ++ mime ++ ";base64," ++ String.mk (b64encodeL content)

/-! ## MD5 (Python `hashlib.md5(...).hexdigest()`)

`StorageService` names files with truncated MD5 hex digests
(`save_asset`: first 12 hex characters, `save_document`: first 8).
RFC 1321 MD5 over byte lists; 32-bit words are `Nat` reduced
`% 4294967296`. -/

/-- RFC 1321 sine-derived constant table `T[i+1] = ⌊2³² · |sin (i+1)|⌋`. -/
def md5K : List Nat := [
    3614090360, 3905402710, 606105819, 3250441966, 4118548399, 1200080426, 2821735955, 4249261313,
    1770035416, 2336552879, 4294925233, 2304563134, 1804603682, 4254626195, 2792965006, 1236535329,
    4129170786, 3225465664, 643717713, 3921069994, 3593408605, 38016083, 3634488961, 3889429448,
    568446438, 3275163606, 4107603335, 1163531501, 2850285829, 4243563512, 1735328473, 2368359562,
    4294588738, 2272392833, 1839030562, 4259657740, 2763975236, 1272893353, 4139469664, 3200236656,
    681279174, 3936430074, 3572445317, 76029189, 3654602809, 3873151461, 530742520, 3299628645,
    4096336452, 1126891415, 2878612391, 4237533241, 1700485571, 2399980690, 4293915773, 2240044497,
    1873313359, 4264355552, 2734768916, 1309151649, 4149444226, 3174756917, 718787259, 3951481745]

/-- Per-round left-rotation amounts. -/
def md5S : List Nat := [
    7, 12, 17, 22, 7, 12, 17, 22, 7, 12, 17, 22, 7, 12, 17, 22,
    5, 9, 14, 20, 5, 9, 14, 20, 5, 9, 14, 20, 5, 9, 14, 20,
    4, 11, 16, 23, 4, 11, 16, 23, 4, 11, 16, 23, 4, 11, 16, 23,
    6, 10, 15, 21, 6, 10, 15, 21, 6, 10, 15, 21, 6, 10, 15, 21]

def rotl32 (x s : Nat) : Nat := (x <<< s ||| x >>> (32 - s)) % 4294967296

/-- Round function (F, G, H, I by step index). -/
def md5F (i b c d : Nat) : Nat :=
  if i < 16 then b &&& c ||| (b ^^^ 4294967295) &&& d
  else if i < 32 then d &&& b ||| (d ^^^ 4294967295) &&& c
  else if i < 48 then b ^^^ c ^^^ d
  else c ^^^ (b ||| (d ^^^ 4294967295))

/-- Message-word schedule index for step `i`. -/
def md5G (i : Nat) : Nat :=
  if i < 16 then i
  else if i < 32 then (5 * i + 1) % 16
  else if i < 48 then (3 * i + 5) % 16
  else 7 * i % 16

/-- One of the 64 steps on state `(a, b, c, d)` over message words `m`. -/
def md5Step (m : List Nat) (st : Nat × Nat × Nat × Nat) (i : Nat) : Nat × Nat × Nat × Nat :=
  let t := (st.1 + md5F i st.2.1 st.2.2.1 st.2.2.2 + md5K.getD i 0 +
    m.getD (md5G i) 0) % 4294967296
  (st.2.2.2, (st.2.1 + rotl32 t (md5S.getD i 0)) % 4294967296, st.2.1, st.2.2.1)

/-- Little-endian 32-bit words of a byte list, four bytes at a time. -/
def md5Words : List Nat → List Nat
  | a :: b :: c :: d :: rest =>
      (a + 256 * b + 65536 * c + 16777216 * d) :: md5Words rest
  | _ => []

/-- Process one 64-byte block. -/
def md5Block (st : Nat × Nat × Nat × Nat) (block : List Nat) : Nat × Nat × Nat × Nat :=
  let m := md5Words block
  let r := (List.range 64).foldl (md5Step m) st
  ((st.1 + r.1) % 4294967296, (st.2.1 + r.2.1) % 4294967296,
    (st.2.2.1 + r.2.2.1) % 4294967296, (st.2.2.2 + r.2.2.2) % 4294967296)

/-- Iterate `md5Block` over successive 64-byte blocks.  Structural
recursion on a fuel argument so that the kernel can evaluate it; the
fuel is always at least the number of blocks. -/
def md5BlocksFuel : Nat → Nat × Nat × Nat × Nat → List Nat → Nat × Nat × Nat × Nat
  | 0, st, _ => st
  | fuel + 1, st, bs =>
      if bs = [] then st
      else md5BlocksFuel fuel (md5Block st (bs.take 64)) (bs.drop 64)

def md5Blocks (st : Nat × Nat × Nat × Nat) (bs : List Nat) : Nat × Nat × Nat × Nat :=
  md5BlocksFuel bs.length st bs

/-- RFC 1321 padding: `0x80`, zeros to 56 mod 64, then the bit length
as eight little-endian bytes. -/
def md5Pad (bs : List Nat) : List Nat :=
  let l := bs.length
  let k := (119 - l % 64) % 64
  bs ++ 128 :: List.replicate k 0 ++
    ((List.range 8).map fun i => ((8 * l % 18446744073709551616) >>> (8 * i)) % 256)

/-- Little-endian bytes of one 32-bit word. -/
def md5WordBytes (w : Nat) : List Nat :=
  [w % 256, w / 256 % 256, w / 65536 % 256, w / 16777216 % 256]

/-- Final state after all blocks, from the RFC 1321 initial state. -/
def md5State (bs : List Nat) : Nat × Nat × Nat × Nat :=
  md5Blocks (1732584193, 4023233417, 2562383102, 271733878) (md5Pad bs)

/-- The 16 digest bytes. -/
def md5Digest (bs : List Nat) : List Nat :=
  md5WordBytes (md5State bs).1 ++ md5WordBytes (md5State bs).2.1 ++
    md5WordBytes (md5State bs).2.2.1 ++ md5WordBytes (md5State bs).2.2.2

def hexDigitChar (n : Nat) : Char := "0123456789abcdef".data.getD n 'x'

/-- Two lowercase hex characters of one byte. -/
def hexByte (b : Nat) : List Char := [hexDigitChar (b / 16), hexDigitChar (b % 16)]

/-- `hashlib.md5(bs).hexdigest()` as a character list. -/
def md5hexL (bs : List Nat) : List Char := (md5Digest bs).flatMap hexByte

/-- `hashlib.md5(bs).hexdigest()`. -/
def md5hex (bs : List Nat) : String := String.mk (md5hexL bs)

set_option maxRecDepth 4000 in
/-- Sanity anchor: MD5 of the empty message (RFC 1321 reference value). -/
theorem md5hex_nil : md5hex [] = "d41d8cd98f00b204e9800998ecf8427e" := by decide

/-! ## Python path helpers (`pathlib.PurePath`)

`StorageService` uses `Path(filename).suffix` and `Path(filename).stem`.
Trailing-separator normalization of `pathlib` is not modelled (no claim
touches it); the `.suffix`/`.stem` split follows CPython: the suffix is
`name[i:]` for `i = name.rfind('.')` when `0 < i < len(name) - 1`,
otherwise empty, and the stem is the name with the suffix removed. -/

/-- `PurePath(p).name`: the component after the last `/`. -/
def pathName (p : String) : String :=
  String.mk (p.data.foldl (fun acc c => if c = '/' then [] else acc ++ [c]) [])

/-- Index of the last occurrence of `c`, if any. -/
def lastIdxOf (c : Char) (l : List Char) : Option Nat :=
  match l.reverse.findIdx? (· == c) with
  | none => none
  | some j => some (l.length - 1 - j)

/-- `PurePath(p).suffix`. -/
def pathSuffix (p : String) : String :=
  let name := (pathName p).data
  match lastIdxOf '.' name with
  | none => ""
  | some i => if 0 < i ∧ i < name.length - 1 then String.mk (name.drop i) else ""

/-- `PurePath(p).stem`. -/
def pathStem (p : String) : String :=
  let name := (pathName p).data
  String.mk (name.take (name.length - (pathSuffix p).length))

/-! ## `StorageService` (`app/services/storage_service.py`)

`datetime.now()` is a microsecond-resolution wall-clock value; the
services format it with `strftime("%Y%m%d_%H%M%S")`, which drops the
microseconds. -/

structure PyDateTime where
  year : Nat
  month : Nat
  day : Nat
  hour : Nat
  minute : Nat
  second : Nat
  microsecond : Nat
deriving DecidableEq, Repr

def pad2 (n : Nat) : String := if n < 10 then "0" ++ toString n else toString n

def pad4 (n : Nat) : String :=
  if n < 10 then "000" ++ toString n
  else if n < 100 then "00" ++ toString n
  else if n < 1000 then "0" ++ toString n
  else toString n

/-- `now.strftime("%Y%m%d_%H%M%S")` — second resolution, microseconds dropped. -/
def strftimeYmdHMS (t : PyDateTime) : String :=
  pad4 t.year ++ pad2 t.month ++ pad2 t.day ++ "_" ++ pad2 t.hour ++ pad2 t.minute ++
    pad2 t.second

/-- ASCII `str.lower()` on one character (extensions are ASCII). -/
def pyLowerChar (c : Char) : Char :=
  if 'A' ≤ c ∧ c ≤ 'Z' then Char.ofNat (c.toNat + 32) else c

/-- Python `str.lower()` (ASCII range; extension strings are ASCII). -/
def pyLower (s : String) : String := String.mk (s.data.map pyLowerChar)

/-- `_get_mime_type`'s fixed lookup table (lines 149-156). -/
def mime_types : List (String × String) :=
  [(".png", "image/png"), (".jpg", "image/jpeg"), (".jpeg", "image/jpeg"),
   (".gif", "image/gif"), (".svg", "image/svg+xml"), (".webp", "image/webp")]

/-- `_get_mime_type` (lines 147-157). -/
def getMimeType (file_ext : String) : String :=
  (mime_types.lookup (pyLower file_ext)).getD "application/octet-stream"

/-- `save_asset`'s extension allow-list (line 53). -/
def allowed_extensions : List String := [".png", ".jpg", ".jpeg", ".gif", ".svg", ".webp"]

structure AssetMetadata where
  file_path : String
  file_size : Nat
  mime_type : String
deriving DecidableEq, Repr

/-- `save_asset` (lines 28-100).  `now` is the wall clock at the call.
The PIL image optimization and dimension probing only transform the
stored pixel data and the `width`/`height` fields; they are not
modelled (no claim depends on them).  A `ValueError` before any write
is the `.error` case. -/
def saveAsset (now : PyDateTime) (fileContent : List Nat) (filename : String)
    (asset_type : String := "image") : Except String AssetMetadata :=
  let file_hash := String.mk ((md5hexL fileContent).take 12)
  let file_ext := pyLower (pathSuffix filename)
  if file_ext ∈ allowed_extensions then
    .ok { file_path := "uploads/assets/" ++ asset_type ++ "/" ++ strftimeYmdHMS now ++ "_" ++
            file_hash ++ file_ext,
          file_size := fileContent.length,
          mime_type := getMimeType file_ext }
  else
    .error ("File type " ++ file_ext ++ " not allowed. Allowed: " ++
      String.intercalate ", " allowed_extensions)

/-- `save_document` (lines 102-124): returns the storage path of the
written PDF, `uploads/documents/<stem>_<timestamp>_<hash8>.pdf`. -/
def saveDocument (now : PyDateTime) (pdf_content : List Nat) (filename : String) : String :=
  "uploads/documents/" ++ pathStem filename ++ "_" ++ strftimeYmdHMS now ++ "_" ++
    String.mk ((md5hexL pdf_content).take 8) ++ ".pdf"

theorem md5hexL_length (bs : List Nat) : (md5hexL bs).length = 32 := by
  simp [md5hexL, md5Digest, md5WordBytes, hexByte]

/-! ## `EnhancedPDFService`: branding configuration and stylesheet

`app/core/config.py` settings used by the service. -/

def DEFAULT_FONT_FAMILY : String := "Inter, -apple-system, BlinkMacSystemFont, sans-serif"

def PDF_PAGE_SIZE : String := "A4"

/-- A branding configuration dictionary: `none` models an absent key. -/
structure BrandingConfig where
  primary_color : Option String := none
  secondary_color : Option String := none
  accent_color : Option String := none
  font_family : Option String := none
  logo_position : Option String := none
  logo_width : Option Nat := none
  show_watermark : Bool := false
  watermark_text : Option String := none
deriving DecidableEq, Repr

structure ResolvedBranding where
  primary_color : String
  secondary_color : String
  accent_color : String
  font_family : String
  logo_position : String
  logo_width : Nat
deriving DecidableEq, Repr

/-- `_get_branding_config` (enhanced_pdf_service.py lines 168-177). -/
def getBrandingConfig (config : BrandingConfig) : ResolvedBranding where
  primary_color := config.primary_color.getD "#1E40AF"
  secondary_color := config.secondary_color.getD "#64748B"
  accent_color := config.accent_color.getD "#F59E0B"
  font_family := config.font_family.getD DEFAULT_FONT_FAMILY
  logo_position := config.logo_position.getD "header-left"
  logo_width := config.logo_width.getD 150

/-! The literal text of the `base_css` f-string of `_generate_css`
(lines 183-293), split at its substitution points.  Literal braces are
written `\x7b`/`\x7d`. -/

def cssSeg1 : String :=
  "\n        @import url('https://fonts.googleapis.com/css2?family=Inter:wght@300;400;500;600;700&display=swap');\n        \n        * \x7b\n            margin: 0;\n            padding: 0;\n            box-sizing: border-box;\n        \x7d\n        \n        @page \x7b\n            size: "

def cssSeg2 : String :=
  ";\n            margin: 2cm;\n            \n            @bottom-right \x7b\n                content: \"Page \" counter(page) \" of \" counter(pages);\n                font-size: 9pt;\n                color: #64748B;\n            \x7d\n        \x7d\n        \n        body \x7b\n            font-family: "

def cssSeg3 : String :=
  ";\n            font-size: 11pt;\n            line-height: 1.6;\n            color: #1E293B;\n        \x7d\n        \n        .header \x7b\n            margin-bottom: 2rem;\n            padding-bottom: 1rem;\n            border-bottom: 2px solid "

def cssSeg4 : String :=
  ";\n        \x7d\n        \n        .logo \x7b\n            max-width: "

/-- The segment after the logo width continues `"px;..."`; the leading
`"px"` is kept as a separate literal in `baseCss` so that statements
about the substituted width can name `<width>px` directly. -/
def cssSeg5 : String :=
  ";\n            height: auto;\n        \x7d\n        \n        h1, h2, h3, h4, h5, h6 \x7b\n            color: "

def cssSeg6 : String :=
  ";\n            margin-top: 1.5rem;\n            margin-bottom: 0.75rem;\n            font-weight: 600;\n        \x7d\n        \n        h1 \x7b font-size: 24pt; \x7d\n        h2 \x7b font-size: 18pt; \x7d\n        h3 \x7b font-size: 14pt; \x7d\n        \n        table \x7b\n            width: 100%;\n            border-collapse: collapse;\n            margin: 1.5rem 0;\n        \x7d\n        \n        th, td \x7b\n            padding: 0.75rem;\n            text-align: left;\n            border-bottom: 1px solid #E2E8F0;\n        \x7d\n        \n        th \x7b\n            background-color: #F1F5F9;\n            color: "

def cssSeg7 : String :=
  ";\n            font-weight: 600;\n        \x7d\n        \n        .total-row \x7b\n            background-color: #F8FAFC;\n            font-weight: 600;\n            font-size: 12pt;\n        \x7d\n        \n        .highlight \x7b\n            background-color: "

def cssSeg8 : String :=
  "20;\n            padding: 1rem;\n            border-left: 4px solid "

def cssSeg9 : String :=
  ";\n            margin: 1rem 0;\n        \x7d\n        \n        .footer \x7b\n            margin-top: 3rem;\n            padding-top: 1rem;\n            border-top: 1px solid #E2E8F0;\n            font-size: 9pt;\n            color: #64748B;\n        \x7d\n        \n        .watermark \x7b\n            position: fixed;\n            top: 50%;\n            left: 50%;\n            transform: translate(-50%, -50%) rotate(-45deg);\n            font-size: 72pt;\n            font-weight: 700;\n            color: rgba(0, 0, 0, 0.05);\n            z-index: -1;\n            white-space: nowrap;\n            pointer-events: none;\n        \x7d\n        \n        .qr-code \x7b\n            max-width: 150px;\n            height: auto;\n        \x7d\n        \n        .text-right \x7b text-align: right; \x7d\n        .text-center \x7b text-align: center; \x7d\n        .mt-4 \x7b margin-top: 2rem; \x7d\n        .mb-4 \x7b margin-bottom: 2rem; \x7d\n        "

/-- The `base_css` value of `_generate_css` (lines 181-293): the
f-string above with the branding values substituted in order
(page size, font family, primary ×3, logo width, accent ×2). -/
def baseCss (branding_config : BrandingConfig) : String :=
  let branding := getBrandingConfig branding_config
  cssSeg1 ++ PDF_PAGE_SIZE ++ cssSeg2 ++ branding.font_family ++ cssSeg3 ++
    branding.primary_color ++ cssSeg4 ++ toString branding.logo_width ++ "px" ++ cssSeg5 ++
    branding.primary_color ++ cssSeg6 ++ branding.primary_color ++ cssSeg7 ++
    branding.accent_color ++ cssSeg8 ++ branding.accent_color ++ cssSeg9

/-- `_generate_css` (lines 179-299): `base_css` plus the custom CSS
fragment when one is given (`if custom_css:` — `None` and the empty
string are falsy). -/
def generateCss (branding_config : BrandingConfig) (custom_css : Option String) : String :=
  match custom_css with
  | some c =>
      if c = "" then baseCss branding_config
      else baseCss branding_config ++ "\n\n/* Custom CSS */\n" ++ c
  | none => baseCss branding_config

/-- Substring containment at the character-list level. -/
def strContainsP (hay pat : String) : Prop :=
  ∃ s t : List Char, hay.data = s ++ pat.data ++ t

/-! ## Custom Jinja2 filters (enhanced_pdf_service.py lines 321-336)

Python floats in template contexts are modelled as exact rationals
(the values the claims exercise, such as `1234.5`, are exactly
representable, so binary rounding never intervenes). -/

/-- `_format_currency`'s symbol table (line 328). -/
def currencySymbols : List (String × String) :=
  [("USD", "$"), ("EUR", "€"), ("GBP", "£"), ("INR", "₹")]

/-- Chunks of three from the front. -/
def chunk3 : List Char → List (List Char)
  | [] => []
  | a :: b :: c :: rest => [a, b, c] :: chunk3 rest
  | l => [l]

/-- Thousands grouping of a natural number, as `f"{n:,}"` does. -/
def commaGroupNat (n : Nat) : String :=
  String.mk ((List.intercalate [','] (chunk3 (toString n).data.reverse)).reverse)

/-- `f"{q:,.2f}"`: round half-to-even at two decimals, group the
integer digits by thousands.  The value scaled by 100 is
`(100 · q.num) / q.den`, handled directly on numerator and
denominator. -/
def pyFormatComma2f (q : ℚ) : String :=
  let n : Int := q.num * 100
  let d : Int := (q.den : Int)
  let fl : Int := Int.fdiv n d
  let r : Int := n - fl * d
  let cents : Int :=
    if 2 * r < d then fl
    else if d < 2 * r then fl + 1
    else if fl % 2 = 0 then fl else fl + 1
  let mag := cents.natAbs
  (if cents < 0 then "-" else "") ++ commaGroupNat (mag / 100) ++ "." ++ pad2 (mag % 100)

/-- `_format_currency` (lines 326-330). -/
def format_currency (value : ℚ) (currency : String := "USD") : String :=
  let symbol := (currencySymbols.lookup currency).getD currency
  symbol ++ pyFormatComma2f value

def monthNames : List String :=
  ["January", "February", "March", "April", "May", "June", "July", "August",
   "September", "October", "November", "December"]

/-- `_format_date` (lines 332-336) on a datetime value with the default
`"%B %d, %Y"` pattern (the ISO-string branch is not modelled; no claim
formats a date). -/
def format_date (t : PyDateTime) : String :=
  monthNames.getD (t.month - 1) "" ++ " " ++ pad2 t.day ++ ", " ++ pad4 t.year

/-! ## Template values and rendering

A small model of the Jinja2 fragment the service configures: an
`Environment(autoescape=True)` used for named templates, and bare
`Template(html_content)` objects (Jinja2 default `autoescape=False`)
for the direct-HTML path.  Templates are parsed node lists: literal
text and `{{ path | filters }}` references. -/

inductive PyVal where
  | str (s : String)
  | num (q : ℚ)
  | bytes (bs : List Nat)
  | date (t : PyDateTime)
  | dict (fields : List (String × PyVal))

/-- Python `str()` of a substituted value.  Composite and non-decimal
values render as placeholders (no claim substitutes one raw). -/
def pyStr : PyVal → String
  | .str s => s
  | .num q =>
      match (List.range 64).find? (fun k => 10 ^ k % q.den = 0) with
      | some k =>
          let m : Int := q.num * (10 ^ k : Nat) / (q.den : Int)
          let digits := toString m.natAbs
          let digits := if digits.length ≤ k then
              String.mk (List.replicate (k + 1 - digits.length) '0') ++ digits else digits
          let intPart := String.mk (digits.data.take (digits.length - k))
          let frac := String.mk (digits.data.drop (digits.length - k))
          (if m < 0 then "-" else "") ++ intPart ++ "." ++ (if k = 0 then "0" else frac)
      | none => "<float>"
  | .bytes _ => "<bytes>"
  | .date _ => "<datetime>"
  | .dict _ => "<dict>"

/-- `markupsafe.escape` of one character. -/
def escapeChar (c : Char) : String :=
  if c = '&' then "&amp;"
  else if c = '<' then "&lt;"
  else if c = '>' then "&gt;"
  else if c = '\'' then "&#39;"
  else if c = '"' then "&#34;"
  else String.mk [c]

/-- `markupsafe.escape`: HTML-escape every character of a string. -/
def escapeHtml (s : String) : String := s.data.foldl (fun acc c => acc ++ escapeChar c) ""

inductive TplNode where
  | text (s : String)
  | var (path : List String) (filters : List String)
deriving DecidableEq

/-- A parsed template: `""` parses to `[]`, any other markup to a
nonempty node list. -/
abbrev Tpl := List TplNode

abbrev Ctx := List (String × PyVal)

/-- Dotted attribute lookup on nested dictionaries. -/
def lookupPath (v : PyVal) : List String → Option PyVal
  | [] => some v
  | k :: rest =>
      match v with
      | .dict fields =>
          match fields.lookup k with
          | some v' => lookupPath v' rest
          | none => none
      | _ => none

/-- One filter application.  The environment registers exactly
`b64encode`, `format_currency` and `format_date` (lines 35-37) on top
of the built-ins; `safe` is the Jinja2 built-in opt-out that marks its
argument as markup.  An unknown name is a resolution error.  The
`Bool` component is the markup-safe flag. -/
def applyFilter (name : String) (v : PyVal × Bool) : Except String (PyVal × Bool) :=
  match name, v with
  | "b64encode", (.bytes bs, sf) => .ok (.str (String.mk (b64encodeL bs)), sf)
  | "b64encode", _ => .error "b64encode expects bytes"
  | "format_currency", (.num q, sf) => .ok (.str (format_currency q), sf)
  | "format_currency", _ => .error "format_currency expects a number"
  | "format_date", (.date t, sf) => .ok (.str (format_date t), sf)
  | "format_date", _ => .error "format_date: value form not modelled"
  | "safe", (w, _) => .ok (w, true)
  | n, _ => .error ("No filter named " ++ n)

def applyFilters (filters : List String) (v : PyVal × Bool) : Except String (PyVal × Bool) :=
  filters.foldlM (fun acc n => applyFilter n acc) v

/-- Render one node.  With `autoescape` on, a substituted value is
HTML-escaped unless marked safe; literal template text is emitted
verbatim.  An unresolved reference renders as the empty string
(Jinja2's default lenient `Undefined`); applying filters to one is an
error. -/
def renderNode (autoescape : Bool) (ctx : Ctx) : TplNode → Except String String
  | .text s => .ok s
  | .var path filters =>
      match lookupPath (.dict ctx) path with
      | none => if filters = [] then .ok "" else .error "filter applied to undefined value"
      | some v => do
          let (v', sf) ← applyFilters filters (v, false)
          let s := pyStr v'
          .ok (if autoescape && !sf then escapeHtml s else s)

/-- `Template.render`: concatenate the rendered nodes. -/
def renderTpl (autoescape : Bool) (tpl : Tpl) (ctx : Ctx) : Except String String :=
  tpl.foldlM (fun acc n => (renderNode autoescape ctx n).map (acc ++ ·)) ""

/-- `_render_template` (lines 301-307): look the template up in the
`Environment` (`autoescape=True`, line 31) and render it; any failure
is re-raised as `ValueError(f"Template rendering failed: {e}")`. -/
def renderNamedTemplate (templates : List (String × Tpl)) (name : String) (ctx : Ctx) :
    Except String String :=
  match templates.lookup name with
  | none => .error ("Template rendering failed: " ++ name)
  | some t =>
      match renderTpl true t ctx with
      | .ok h => .ok h
      | .error e => .error ("Template rendering failed: " ++ e)

/-- The rendering dispatch of `generate_pdf` (lines 89-97):
`if template_name: ... elif html_content: Template(html_content) ...
else: raise ValueError`.  `Template(s)` is a bare Jinja2 template,
whose default is `autoescape=False`.  Python truthiness: `None` and
the empty markup (which parses to `[]`) are falsy. -/
def generatePdfHtml (templates : List (String × Tpl)) (template_name : Option String)
    (html_content : Option Tpl) (ctx : Ctx) : Except String String :=
  if template_name.getD "" ≠ "" then
    renderNamedTemplate templates (template_name.getD "") ctx
  else if html_content.getD [] ≠ [] then
    renderTpl false (html_content.getD []) ctx
  else
    .error "Either template_name or html_content must be provided"

/-! ## `_process_assets` (lines 107-145) -/

/-- An asset dictionary as the routers build them; `none` models an
absent key (`asset.get(...)`).  `display_config` is copied through
verbatim by the code and not modelled. -/
structure AssetDict where
  asset_type : Option String := none
  file_path : Option String := none
  mime_type : Option String := none
  name : Option String := none
  width : Option Nat := none
  height : Option Nat := none
  is_default : Bool := false
deriving DecidableEq, Repr

structure LogoEntry where
  data_url : String
  width : Option Nat
  height : Option Nat
deriving DecidableEq, Repr

structure ImageEntry where
  data_url : String
  name : Option String
  width : Option Nat
  height : Option Nat
deriving DecidableEq, Repr

/-- The `processed` dictionary: a single `logo` slot and an `images`
list. -/
structure ProcessedAssets where
  logo : Option LogoEntry := none
  images : List ImageEntry := []
deriving DecidableEq, Repr

/-- The files present on disk: path ↦ bytes. -/
abbrev FileSystem := List (String × List Nat)

/-- Line 115: `if not file_path or not os.path.exists(file_path)`. -/
def assetExists (fs : FileSystem) (a : AssetDict) : Bool :=
  a.file_path.getD "" ≠ "" && (fs.lookup (a.file_path.getD "")).isSome

/-- Line 127: `if asset_type == 'logo' or asset.get('is_default')`. -/
def isLogoAsset (a : AssetDict) : Bool :=
  a.asset_type.getD "image" == "logo" || a.is_default

def logoEntryOf (fs : FileSystem) (a : AssetDict) : LogoEntry :=
  { data_url := dataUrl (a.mime_type.getD "image/png") ((fs.lookup (a.file_path.getD "")).getD [])
    width := a.width
    height := a.height }

def imageEntryOf (fs : FileSystem) (a : AssetDict) : ImageEntry :=
  { data_url := dataUrl (a.mime_type.getD "image/png") ((fs.lookup (a.file_path.getD "")).getD [])
    name := a.name
    width := a.width
    height := a.height }

/-- The loop of `_process_assets` with accumulator `acc`. -/
def processAssetsFrom (fs : FileSystem) : List AssetDict → ProcessedAssets → ProcessedAssets
  | [], acc => acc
  | a :: rest, acc =>
      if assetExists fs a then
        if isLogoAsset a then
          processAssetsFrom fs rest { acc with logo := some (logoEntryOf fs a) }
        else
          processAssetsFrom fs rest { acc with images := acc.images ++ [imageEntryOf fs a] }
      else
        processAssetsFrom fs rest acc

/-- `_process_assets`. -/
def processAssets (fs : FileSystem) (assets : List AssetDict) : ProcessedAssets :=
  processAssetsFrom fs assets {}

/-! ## Generation endpoints

`templates_router.generate_document` (lines 359-412) and
`documents.generate_invoice` (lines 14-106).  The fallible pipeline
steps — `pdf_service.generate_pdf` (whose PDF layout engine is not
modelled) and `storage_service.save_document`'s filesystem write — are
abstracted as `Except`-valued components of the request environment;
the theorems are about the control flow and response contract built on
top of them. -/

structure HTTPException where
  status_code : Nat
  detail : String
deriving DecidableEq, Repr

/-- `schemas.DocumentGenerationResponse` (schemas.py lines 281-287). -/
structure DocumentGenerationResponse where
  success : Bool
  pdf_url : Option String := none
  pdf_size : Option Nat := none
  message : Option String := none
  document_id : Option Nat := none
deriving DecidableEq, Repr

/-- Environment of one `/templates/generate` request. -/
structure GenEnv where
  /-- whether the template row exists in the database -/
  template_found : Bool
  /-- outcome of `pdf_service.generate_pdf`: the PDF bytes, or the
  exception message -/
  gen : Except String (List Nat)
  /-- outcome of `storage_service.save_document` on given bytes: the
  storage path, or the exception message -/
  save : List Nat → Except String String

/-- `generate_document` (templates_router.py lines 359-412). -/
def generateDocument (env : GenEnv) : Except HTTPException DocumentGenerationResponse :=
  if ¬ env.template_found then .error ⟨404, "Template not found"⟩
  else
    match env.gen with
    | .error e => .ok { success := false, message := some ("Document generation failed: " ++ e) }
    | .ok pdf_bytes =>
        match env.save pdf_bytes with
        | .error e =>
            .ok { success := false, message := some ("Document generation failed: " ++ e) }
        | .ok pdf_path =>
            .ok { success := true, pdf_url := some pdf_path, pdf_size := some pdf_bytes.length,
                  message := some "Document generated successfully" }

/-- A `models.Invoice` row as `generate_invoice` returns it. -/
structure InvoiceRec where
  order_id : Nat
  invoice_number : String
  pdf_url : String
  status : String
deriving DecidableEq, Repr

/-- Environment of one `/documents/invoices/generate` request. -/
structure InvEnv where
  /-- the order row, if found: its id and its existing invoice -/
  order : Option (Nat × Option InvoiceRec)
  gen : Except String (List Nat)
  save : List Nat → Except String String

/-- `generate_invoice` (documents.py lines 14-106): pipeline failures
are re-raised as `HTTPException(500, f"PDF generation failed: {e}")`,
not returned as a response value. -/
def generateInvoice (env : InvEnv) : Except HTTPException InvoiceRec :=
  match env.order with
  | none => .error ⟨404, "Order not found"⟩
  | some (_, some inv) => .ok inv
  | some (oid, none) =>
      match env.gen with
      | .error e => .error ⟨500, "PDF generation failed: " ++ e⟩
      | .ok pdf_bytes =>
          match env.save pdf_bytes with
          | .error e => .error ⟨500, "PDF generation failed: " ++ e⟩
          | .ok pdf_path =>
              .ok { order_id := oid, invoice_number := "INV-" ++ toString oid,
                    pdf_url := "/api/v1/documents/files/" ++ pathName pdf_path,
                    status := "issued" }

/-! ## Concrete data for the claim scenarios -/

/-- `Hello {{customer.name}}, total {{total|format_currency}}`. -/
def helloTpl : Tpl :=
  [.text "Hello ", .var ["customer", "name"] [], .text ", total ",
    .var ["total"] ["format_currency"]]

/-- `{customer: {name: "Acme"}, total: 1234.5}` — the float `1234.5`
is exactly `2469/2`. -/
def helloCtx : Ctx :=
  [("customer", .dict [("name", .str "Acme")]), ("total", .num (mkRat 2469 2))]

def logoAsset : AssetDict :=
  { asset_type := some "logo", file_path := some "logo.png", is_default := true }

def imageAsset : AssetDict :=
  { asset_type := some "image", file_path := some "pic.png" }

def demoFs : FileSystem := [("logo.png", [1, 2, 3]), ("pic.png", [4, 5])]

/-- A branding configuration whose `secondary_color` value `"ZZZ"`
occurs nowhere in the stylesheet text. -/
def cfgZZZ : BrandingConfig := { secondary_color := some "ZZZ" }

def dt0 : PyDateTime := ⟨2024, 1, 2, 3, 4, 5, 0⟩

/-- Same wall-clock second as `dt0`, different microsecond. -/
def dt1 : PyDateTime := ⟨2024, 1, 2, 3, 4, 5, 111111⟩

/-- One second after `dt0`. -/
def dt2 : PyDateTime := ⟨2024, 1, 2, 3, 4, 6, 0⟩

/-- The metadata `save_asset` produces at `dt0` for bytes `[1, 2]` and
filename `logo.PNG` (`0cb988d042a7` is the first 12 hex characters of
the MD5 of those bytes). -/
def pngMeta : AssetMetadata :=
  { file_path := "uploads/assets/image/20240102_030405_0cb988d042a7.png"
    file_size := 2
    mime_type := "image/png" }

/-! # Theorems -/

/-! ### C5 — inline asset representation round trip -/

/-- **C5**: for every asset byte string `b`, the inline representation
has the exact form `data:<mime-type>;base64,<payload>`, and decoding
the payload yields exactly `b`. -/
theorem c5_data_url_roundtrip (mime : String) (b : List Nat) (h : ∀ x ∈ b, x < 256) :
    dataUrl mime b = "data:" ++ mime ++ ";base64," ++ String.mk (b64encodeL b) ∧
    b64decodeL (String.mk (b64encodeL b)).data = some b :=
  ⟨rfl, b64_roundtrip b h⟩

theorem c5_witness :
    (∀ x ∈ [72, 105, 33], x < 256) ∧
    (dataUrl "image/png" [72, 105, 33] =
        "data:" ++ "image/png" ++ ";base64," ++ String.mk (b64encodeL [72, 105, 33]) ∧
      b64decodeL (String.mk (b64encodeL [72, 105, 33])).data = some [72, 105, 33]) :=
  ⟨by decide, c5_data_url_roundtrip "image/png" [72, 105, 33] (by decide)⟩

/-! ### C6 — currency formatting scenario -/

/-- **C6**: the scenario template resolves to
`Hello Acme, total $1,234.50` (on either escaping mode — no character
involved needs escaping), and the `format_currency` symbol table
covers USD, EUR, GBP and INR. -/
theorem c6_hello_scenario :
    renderTpl true helloTpl helloCtx = .ok "Hello Acme, total $1,234.50" ∧
    renderTpl false helloTpl helloCtx = .ok "Hello Acme, total $1,234.50" ∧
    format_currency (mkRat 2469 2) = "$1,234.50" ∧
    currencySymbols.lookup "USD" = some "$" ∧
    currencySymbols.lookup "EUR" = some "€" ∧
    currencySymbols.lookup "GBP" = some "£" ∧
    currencySymbols.lookup "INR" = some "₹" := by
  refine ⟨by decide, by decide, by decide, by decide, by decide, by decide, by decide⟩

/-! ### C10 — missing template and HTML content -/

/-- **C10**: with both `template_name` and `html_content` equal to
`None`, `generate_pdf` raises
`ValueError("Either template_name or html_content must be provided")`
whatever the other arguments are. -/
theorem c10_generate_pdf_requires_source (templates : List (String × Tpl)) (ctx : Ctx) :
    generatePdfHtml templates none none ctx =
      .error "Either template_name or html_content must be provided" := rfl

/-! ### C2 — escaping policy -/

theorem str_empty_append (s : String) : "" ++ s = s :=
  String.ext (by simp [String.data_append])

theorem escapeChar_good (c d : Char) (hd : d ∈ (escapeChar c).data) :
    d ≠ '<' ∧ d ≠ '>' ∧ d ≠ '"' ∧ d ≠ '\'' := by
  by_cases h1 : c = '&'
  · simp [escapeChar, h1] at hd
    rcases hd with rfl | rfl | rfl | rfl | rfl <;> decide
  by_cases h2 : c = '<'
  · simp [escapeChar, h1, h2] at hd
    rcases hd with rfl | rfl | rfl | rfl <;> decide
  by_cases h3 : c = '>'
  · simp [escapeChar, h1, h2, h3] at hd
    rcases hd with rfl | rfl | rfl | rfl <;> decide
  by_cases h4 : c = '\''
  · simp [escapeChar, h1, h2, h3, h4] at hd
    rcases hd with rfl | rfl | rfl | rfl | rfl <;> decide
  by_cases h5 : c = '"'
  · simp [escapeChar, h1, h2, h3, h4, h5] at hd
    rcases hd with rfl | rfl | rfl | rfl | rfl <;> decide
  · simp [escapeChar, h1, h2, h3, h4, h5] at hd
    subst hd
    exact ⟨h2, h3, h5, h4⟩

theorem foldl_escape_good (l : List Char) :
    ∀ acc : String, (∀ c ∈ acc.data, c ≠ '<' ∧ c ≠ '>' ∧ c ≠ '"' ∧ c ≠ '\'') →
      ∀ c ∈ (l.foldl (fun a ch => a ++ escapeChar ch) acc).data,
        c ≠ '<' ∧ c ≠ '>' ∧ c ≠ '"' ∧ c ≠ '\'' := by
  induction l with
  | nil => intro acc hacc c hc; exact hacc c hc
  | cons x xs ih =>
      intro acc hacc c hc
      refine ih (acc ++ escapeChar x) ?_ c hc
      intro d hd
      rw [String.data_append] at hd
      rcases List.mem_append.mp hd with h | h
      · exact hacc d h
      · exact escapeChar_good x d h

/-- Escaped output contains no raw `<`, `>`, `"` or `'`. -/
theorem escapeHtml_good (s : String) :
    ∀ c ∈ (escapeHtml s).data, c ≠ '<' ∧ c ≠ '>' ∧ c ≠ '"' ∧ c ≠ '\'' :=
  foldl_escape_good s.data "" (by simp)

theorem renderTpl_single_var (esc : Bool) (ctx : Ctx) (path : List String) (v : PyVal)
    (h : lookupPath (.dict ctx) path = some v) :
    renderTpl esc [.var path []] ctx =
      .ok (if esc then escapeHtml (pyStr v) else pyStr v) := by
  cases esc <;>
    simp [renderTpl, List.foldlM, renderNode, h, applyFilters, str_empty_append,
      Except.map, bind, Except.bind, pure, Except.pure]

theorem renderTpl_single_var_safe (esc : Bool) (ctx : Ctx) (path : List String) (v : PyVal)
    (h : lookupPath (.dict ctx) path = some v) :
    renderTpl esc [.var path ["safe"]] ctx = .ok (pyStr v) := by
  rcases v with s | q | bs | t | fields <;> cases esc <;>
    simp [renderTpl, List.foldlM, renderNode, h, applyFilters, applyFilter, str_empty_append,
      Except.map, bind, Except.bind, pure, Except.pure]

/-- **C2 amended**: substitution through the named-template path
(`Environment(autoescape=True)`) is HTML-escaped by default, with the
per-reference `|safe` filter as explicit opt-out; the direct
`html_content` path builds a bare `Template` (Jinja2 default
`autoescape=False`), so its substitutions are inserted unescaped. -/
theorem c2_escaping_policy (templates : List (String × Tpl)) (ctx : Ctx)
    (path : List String) (v : PyVal) (h : lookupPath (.dict ctx) path = some v) :
    generatePdfHtml (("t.html", [.var path []]) :: templates) (some "t.html") none ctx =
      .ok (escapeHtml (pyStr v)) ∧
    generatePdfHtml (("t.html", [.var path ["safe"]]) :: templates) (some "t.html") none ctx =
      .ok (pyStr v) ∧
    generatePdfHtml templates none (some [.var path []]) ctx = .ok (pyStr v) ∧
    (∀ c ∈ (escapeHtml (pyStr v)).data, c ≠ '<' ∧ c ≠ '>' ∧ c ≠ '"' ∧ c ≠ '\'') := by
  refine ⟨?_, ?_, ?_, escapeHtml_good (pyStr v)⟩
  · simp [generatePdfHtml, renderNamedTemplate, List.lookup,
      renderTpl_single_var true ctx path v h]
  · simp [generatePdfHtml, renderNamedTemplate, List.lookup,
      renderTpl_single_var_safe true ctx path v h]
  · simp [generatePdfHtml, renderTpl_single_var false ctx path v h]

theorem c2_witness :
    lookupPath (.dict [("x", .str "<b>&")]) ["x"] = some (.str "<b>&") ∧
    (generatePdfHtml [("t.html", [.var ["x"] []])] (some "t.html") none [("x", .str "<b>&")] =
        .ok (escapeHtml (pyStr (.str "<b>&"))) ∧
      generatePdfHtml [("t.html", [.var ["x"] ["safe"]])] (some "t.html") none
          [("x", .str "<b>&")] = .ok (pyStr (.str "<b>&")) ∧
      generatePdfHtml [] none (some [.var ["x"] []]) [("x", .str "<b>&")] =
        .ok (pyStr (.str "<b>&")) ∧
      (∀ c ∈ (escapeHtml (pyStr (.str "<b>&"))).data,
        c ≠ '<' ∧ c ≠ '>' ∧ c ≠ '"' ∧ c ≠ '\'')) :=
  ⟨rfl, c2_escaping_policy [] [("x", .str "<b>&")] ["x"] (.str "<b>&") rfl⟩

/-- **C2 counterexample**: on the direct `html_content` path a context
value containing `<` and `&` is substituted verbatim, not escaped —
the claim fails on that path. -/
theorem c2_counterexample :
    generatePdfHtml [] none (some [.var ["x"] []]) [("x", .str "<b>&")] = .ok "<b>&" ∧
    "<b>&" ≠ escapeHtml "<b>&" :=
  ⟨by decide, by decide⟩

/-! ### C7, C8 — asset classification and lenient skipping -/

theorem getLast?_cons_or {α : Type} (x : α) (l : List α) :
    (x :: l).getLast? = (l.getLast?).or (some x) := by
  induction l generalizing x with
  | nil => rfl
  | cons y ys ih =>
      rw [List.getLast?_cons_cons, ih y]
      cases ys.getLast? <;> simp [Option.or]

theorem processAssetsFrom_logo (fs : FileSystem) :
    ∀ (assets : List AssetDict) (acc : ProcessedAssets),
      (processAssetsFrom fs assets acc).logo =
        (((assets.filter fun a => assetExists fs a && isLogoAsset a).map
          (logoEntryOf fs)).getLast?).or acc.logo := by
  intro assets
  induction assets with
  | nil => intro acc; simp [processAssetsFrom, Option.or]
  | cons a rest ih =>
      intro acc
      cases hE : assetExists fs a
      · simp [processAssetsFrom, hE, List.filter_cons, ih]
      · cases hL : isLogoAsset a
        · simp [processAssetsFrom, hE, hL, List.filter_cons, ih]
        · simp only [processAssetsFrom, hE, hL, if_true, List.filter_cons, Bool.and_self,
            List.map_cons, ih]
          rw [getLast?_cons_or]
          cases ((rest.filter fun a => assetExists fs a && isLogoAsset a).map
            (logoEntryOf fs)).getLast? <;> simp [Option.or]

theorem processAssetsFrom_images (fs : FileSystem) :
    ∀ (assets : List AssetDict) (acc : ProcessedAssets),
      (processAssetsFrom fs assets acc).images =
        acc.images ++ (assets.filter fun a => assetExists fs a && !isLogoAsset a).map
          (imageEntryOf fs) := by
  intro assets
  induction assets with
  | nil => intro acc; simp [processAssetsFrom]
  | cons a rest ih =>
      intro acc
      cases hE : assetExists fs a
      · simp [processAssetsFrom, hE, List.filter_cons, ih]
      · cases hL : isLogoAsset a
        · simp [processAssetsFrom, hE, hL, List.filter_cons, ih]
        · simp [processAssetsFrom, hE, hL, List.filter_cons, ih]

/-- **C7**: existing logo-or-default assets land in the single `logo`
slot with last-one-wins semantics, all other existing assets accumulate
in `images` in input order; and the one-logo-one-image scenario yields
exactly one logo entry and an images list of length one. -/
theorem c7_asset_classification (fs : FileSystem) (assets : List AssetDict) :
    (processAssets fs assets).logo =
      ((assets.filter fun a => assetExists fs a && isLogoAsset a).map
        (logoEntryOf fs)).getLast? ∧
    (processAssets fs assets).images =
      (assets.filter fun a => assetExists fs a && !isLogoAsset a).map (imageEntryOf fs) ∧
    (processAssets demoFs [logoAsset, imageAsset]).logo.isSome = true ∧
    (processAssets demoFs [logoAsset, imageAsset]).images.length = 1 := by
  refine ⟨?_, ?_, by decide, by decide⟩
  · rw [processAssets, processAssetsFrom_logo]
    simp [Option.or_none]
  · rw [processAssets, processAssetsFrom_images]
    simp

theorem processAssetsFrom_filter (fs : FileSystem) :
    ∀ (assets : List AssetDict) (acc : ProcessedAssets),
      processAssetsFrom fs assets acc =
        processAssetsFrom fs (assets.filter (assetExists fs)) acc := by
  intro assets
  induction assets with
  | nil => intro acc; simp
  | cons a rest ih =>
      intro acc
      cases hE : assetExists fs a
      · simp [processAssetsFrom, hE, List.filter_cons, ih]
      · cases hL : isLogoAsset a <;>
          simp [processAssetsFrom, hE, hL, List.filter_cons, ih]

/-- **C8**: assets with a falsy path or whose backing file is absent
are skipped without error — processing a list equals processing its
existing-assets sublist, so the remaining assets are still processed
and generation is not blocked. -/
theorem c8_missing_assets_skipped (fs : FileSystem) (assets : List AssetDict) :
    processAssets fs assets = processAssets fs (assets.filter (assetExists fs)) ∧
    (∀ a : AssetDict, a.file_path = none → assetExists fs a = false) ∧
    (∀ a : AssetDict, fs.lookup (a.file_path.getD "") = none → assetExists fs a = false) := by
  refine ⟨processAssetsFrom_filter fs assets {}, ?_, ?_⟩
  · intro a ha
    simp [assetExists, ha]
  · intro a ha
    simp [assetExists, ha]

theorem c8_witness :
    ((⟨none, some "nope.png", none, none, none, none, false⟩ : AssetDict).file_path =
        some "nope.png" ∧
      demoFs.lookup "nope.png" = none ∧
      (⟨none, none, none, none, none, none, false⟩ : AssetDict).file_path = none) ∧
    (processAssets demoFs [logoAsset, imageAsset] =
        processAssets demoFs ([logoAsset, imageAsset].filter (assetExists demoFs)) ∧
      assetExists demoFs ⟨none, none, none, none, none, none, false⟩ = false ∧
      assetExists demoFs ⟨none, some "nope.png", none, none, none, none, false⟩ = false) :=
  ⟨⟨rfl, rfl, rfl⟩,
    (c8_missing_assets_skipped demoFs [logoAsset, imageAsset]).1,
    (c8_missing_assets_skipped demoFs [logoAsset, imageAsset]).2.1
      ⟨none, none, none, none, none, none, false⟩ rfl,
    (c8_missing_assets_skipped demoFs [logoAsset, imageAsset]).2.2
      ⟨none, some "nope.png", none, none, none, none, false⟩ rfl⟩

/-! ### C1 — branding values in the stylesheet -/

theorem generateCss_data (cfg : BrandingConfig) (custom : Option String) :
    ∃ ex : List Char, (generateCss cfg custom).data = (baseCss cfg).data ++ ex := by
  cases custom with
  | none => exact ⟨[], by simp [generateCss]⟩
  | some c =>
      by_cases hc : c = ""
      · exact ⟨[], by simp [generateCss, hc]⟩
      · exact ⟨("\n\n/* Custom CSS */\n" ++ c).data,
          by simp [generateCss, hc, String.data_append]⟩

theorem contains_extend (hay hay2 pat : String) (ex : List Char)
    (hd : hay2.data = hay.data ++ ex) (h : strContainsP hay pat) : strContainsP hay2 pat := by
  obtain ⟨s, t, hs⟩ := h
  exact ⟨s, t ++ ex, by rw [hd, hs]; simp [List.append_assoc]⟩

theorem contains_middle (hay mid pat : String) (pre suf : List Char)
    (h : hay.data = pre ++ mid.data ++ suf) (hm : strContainsP mid pat) :
    strContainsP hay pat := by
  obtain ⟨s, t, hs⟩ := hm
  exact ⟨pre ++ s, t ++ suf, by rw [h, hs]; simp [List.append_assoc]⟩

set_option maxRecDepth 8000 in
/-- **C1 amended**: the stylesheet carries the resolved (caller value
or documented default) `primary_color`, `accent_color`, `font_family`
and `logo_width`; the `secondary_color` default `#64748B` appears only
as a hard-coded literal; caller-supplied `secondary_color` and
`logo_position` values are not interpolated into the stylesheet (they
are exposed to templates through the branding context instead). -/
theorem c1_css_branding (cfg : BrandingConfig) (custom : Option String) :
    strContainsP (generateCss cfg custom) (cfg.primary_color.getD "#1E40AF") ∧
    strContainsP (generateCss cfg custom) (cfg.accent_color.getD "#F59E0B") ∧
    strContainsP (generateCss cfg custom) (cfg.font_family.getD DEFAULT_FONT_FAMILY) ∧
    strContainsP (generateCss cfg custom) (toString (cfg.logo_width.getD 150) ++ "px") ∧
    strContainsP (generateCss cfg custom) "#64748B" := by
  obtain ⟨ex, hex⟩ := generateCss_data cfg custom
  refine ⟨contains_extend _ _ _ ex hex ?_, contains_extend _ _ _ ex hex ?_,
    contains_extend _ _ _ ex hex ?_, contains_extend _ _ _ ex hex ?_,
    contains_extend _ _ _ ex hex ?_⟩
  · exact ⟨cssSeg1.data ++ PDF_PAGE_SIZE.data ++ cssSeg2.data ++
      (cfg.font_family.getD DEFAULT_FONT_FAMILY).data ++ cssSeg3.data,
      cssSeg4.data ++ (toString (cfg.logo_width.getD 150)).data ++ "px".data ++ cssSeg5.data ++
        (cfg.primary_color.getD "#1E40AF").data ++ cssSeg6.data ++
        (cfg.primary_color.getD "#1E40AF").data ++ cssSeg7.data ++
        (cfg.accent_color.getD "#F59E0B").data ++ cssSeg8.data ++
        (cfg.accent_color.getD "#F59E0B").data ++ cssSeg9.data,
      by simp [baseCss, getBrandingConfig, String.data_append, List.append_assoc]⟩
  · exact ⟨cssSeg1.data ++ PDF_PAGE_SIZE.data ++ cssSeg2.data ++
      (cfg.font_family.getD DEFAULT_FONT_FAMILY).data ++ cssSeg3.data ++
      (cfg.primary_color.getD "#1E40AF").data ++ cssSeg4.data ++
      (toString (cfg.logo_width.getD 150)).data ++ "px".data ++ cssSeg5.data ++
      (cfg.primary_color.getD "#1E40AF").data ++ cssSeg6.data ++
      (cfg.primary_color.getD "#1E40AF").data ++ cssSeg7.data,
      cssSeg8.data ++ (cfg.accent_color.getD "#F59E0B").data ++ cssSeg9.data,
      by simp [baseCss, getBrandingConfig, String.data_append, List.append_assoc]⟩
  · exact ⟨cssSeg1.data ++ PDF_PAGE_SIZE.data ++ cssSeg2.data,
      cssSeg3.data ++ (cfg.primary_color.getD "#1E40AF").data ++ cssSeg4.data ++
        (toString (cfg.logo_width.getD 150)).data ++ "px".data ++ cssSeg5.data ++
        (cfg.primary_color.getD "#1E40AF").data ++ cssSeg6.data ++
        (cfg.primary_color.getD "#1E40AF").data ++ cssSeg7.data ++
        (cfg.accent_color.getD "#F59E0B").data ++ cssSeg8.data ++
        (cfg.accent_color.getD "#F59E0B").data ++ cssSeg9.data,
      by simp [baseCss, getBrandingConfig, String.data_append, List.append_assoc]⟩
  · refine ⟨cssSeg1.data ++ PDF_PAGE_SIZE.data ++ cssSeg2.data ++
      (cfg.font_family.getD DEFAULT_FONT_FAMILY).data ++ cssSeg3.data ++
      (cfg.primary_color.getD "#1E40AF").data ++ cssSeg4.data,
      cssSeg5.data ++ (cfg.primary_color.getD "#1E40AF").data ++ cssSeg6.data ++
        (cfg.primary_color.getD "#1E40AF").data ++ cssSeg7.data ++
        (cfg.accent_color.getD "#F59E0B").data ++ cssSeg8.data ++
        (cfg.accent_color.getD "#F59E0B").data ++ cssSeg9.data, ?_⟩
    simp [baseCss, getBrandingConfig, String.data_append, List.append_assoc]
  · refine contains_middle _ cssSeg2 _
      (cssSeg1.data ++ PDF_PAGE_SIZE.data)
      ((cfg.font_family.getD DEFAULT_FONT_FAMILY).data ++ cssSeg3.data ++
        (cfg.primary_color.getD "#1E40AF").data ++ cssSeg4.data ++
        (toString (cfg.logo_width.getD 150)).data ++ "px".data ++ cssSeg5.data ++
        (cfg.primary_color.getD "#1E40AF").data ++ cssSeg6.data ++
        (cfg.primary_color.getD "#1E40AF").data ++ cssSeg7.data ++
        (cfg.accent_color.getD "#F59E0B").data ++ cssSeg8.data ++
        (cfg.accent_color.getD "#F59E0B").data ++ cssSeg9.data)
      (by simp [baseCss, getBrandingConfig, String.data_append, List.append_assoc])
      ⟨cssSeg2.data.take 193, cssSeg2.data.drop 200, by decide⟩

set_option maxRecDepth 8000 in
/-- **C1 counterexample**: with `secondary_color` present and equal to
`"ZZZ"`, the produced stylesheet does not contain the caller-specified
value — `secondary_color` is never interpolated into the CSS. -/
theorem c1_counterexample :
    cfgZZZ.secondary_color = some "ZZZ" ∧ ¬ strContainsP (generateCss cfgZZZ none) "ZZZ" := by
  refine ⟨rfl, ?_⟩
  rintro ⟨s, t, h⟩
  have hz : 'Z' ∈ (generateCss cfgZZZ none).data := by
    rw [h]
    exact List.mem_append.mpr (Or.inl (List.mem_append.mpr (Or.inr (by decide))))
  exact absurd hz (by decide)

/-! ### C3 — document storage path uniqueness -/

theorem data_mk (l : List Char) : (String.mk l).data = l := rfl

theorem md5hexL_take_eight (bs : List Nat) :
    (md5hexL bs).take 8 = (md5WordBytes (md5State bs).1).flatMap hexByte := by
  have hlen : ((md5WordBytes (md5State bs).1).flatMap hexByte).length = 8 := by
    simp [md5WordBytes, hexByte]
  simp only [md5hexL, md5Digest, List.flatMap_append, List.append_assoc]
  rw [← hlen, List.take_left]

theorem md5WordBytes_mod_congr (x y : Nat) (h : x % 4294967296 = y % 4294967296) :
    md5WordBytes x = md5WordBytes y := by
  simp only [md5WordBytes, List.cons.injEq, and_true]
  refine ⟨by omega, by omega, by omega, by omega⟩

theorem take8_md5hexL_length (bs : List Nat) : ((md5hexL bs).take 8).length = 8 := by
  simp [List.length_take, md5hexL_length]

/-- **C3 amended**: two `save_document` calls return distinct paths
whenever their 8-hex-character truncated MD5 digests differ, or
whenever their second-resolution timestamp strings differ (same
filename in both cases).  Distinct contents alone do **not** guarantee
distinct hashes — see the counterexample. -/
theorem c3_storage_paths_distinct (t1 t2 : PyDateTime) (c1 c2 : List Nat) (fn : String)
    (h : (md5hexL c1).take 8 ≠ (md5hexL c2).take 8 ∨
      strftimeYmdHMS t1 ≠ strftimeYmdHMS t2) :
    saveDocument t1 c1 fn ≠ saveDocument t2 c2 fn := by
  intro heq
  have hd := congrArg String.data heq
  simp only [saveDocument, String.data_append, data_mk, List.append_assoc] at hd
  have hd1 := List.append_cancel_left hd
  have hd2 := List.append_cancel_left hd1
  have hd3 := List.append_cancel_left hd2
  have hlt : (strftimeYmdHMS t1).data.length = (strftimeYmdHMS t2).data.length := by
    have hl := congrArg List.length hd3
    simp only [List.length_append] at hl
    have e1 := take8_md5hexL_length c1
    have e2 := take8_md5hexL_length c2
    omega
  obtain ⟨hts, hrest⟩ := List.append_inj hd3 hlt
  have hrest2 := List.append_cancel_left hrest
  have hlh : ((md5hexL c1).take 8).length = ((md5hexL c2).take 8).length := by
    rw [take8_md5hexL_length, take8_md5hexL_length]
  obtain ⟨hh, -⟩ := List.append_inj hrest2 hlh
  rcases h with h | h
  · exact h hh
  · exact h (String.ext hts)

theorem c3_witness :
    ((md5hexL [1, 2, 3]).take 8 ≠ (md5hexL [1, 2, 3]).take 8 ∨
      strftimeYmdHMS dt0 ≠ strftimeYmdHMS dt2) ∧
    saveDocument dt0 [1, 2, 3] "invoice" ≠ saveDocument dt2 [1, 2, 3] "invoice" :=
  ⟨Or.inr (by decide),
    c3_storage_paths_distinct dt0 dt2 [1, 2, 3] [1, 2, 3] "invoice" (Or.inr (by decide))⟩

set_option maxRecDepth 8000 in
/-- **C3 counterexample**: (i) the 8-hex-character (32-bit) truncated
MD5 cannot separate all distinct contents — by pigeonhole there exist
two different byte strings whose storage paths at the same wall-clock
time coincide, so distinctness is *not* guaranteed by the content-hash
component alone; and (ii) two calls at different real times within the
same second (microseconds differ) return the *same* path for the same
bytes. -/
theorem c3_counterexample :
    (¬ ∀ c1 c2 : List Nat, c1 ≠ c2 →
        saveDocument dt0 c1 "invoice" ≠ saveDocument dt0 c2 "invoice") ∧
    dt0 ≠ dt1 ∧
    saveDocument dt0 [1, 2, 3] "invoice" = saveDocument dt1 [1, 2, 3] "invoice" := by
  refine ⟨?_, by decide, by decide⟩
  intro hclaim
  obtain ⟨c1, c2, hne, heq⟩ := Finite.exists_ne_map_eq_of_infinite
    (fun bs : List Nat =>
      (⟨(md5State bs).1 % 4294967296, Nat.mod_lt _ (by norm_num)⟩ : Fin 4294967296))
  apply hclaim c1 c2 hne
  have hmod : (md5State c1).1 % 4294967296 = (md5State c2).1 % 4294967296 :=
    congrArg Fin.val heq
  have h8 : (md5hexL c1).take 8 = (md5hexL c2).take 8 := by
    rw [md5hexL_take_eight, md5hexL_take_eight, md5WordBytes_mod_congr _ _ hmod]
  simp [saveDocument, h8]

/-! ### C9 — asset extension allow-list and MIME table -/

/-- **C9**: `save_asset` raises a validation error (writing nothing —
the `.error` branch constructs no metadata and precedes any write)
exactly when the lowercased extension is outside the allow-list, and
every successfully saved asset's MIME type is the fixed table's entry
for that extension. -/
theorem c9_save_asset_validation (now : PyDateTime) (content : List Nat) (filename : String)
    (atype : String) :
    ((saveAsset now content filename atype).isOk = false ↔
      pyLower (pathSuffix filename) ∉ allowed_extensions) ∧
    (∀ m, saveAsset now content filename atype = .ok m →
      mime_types.lookup (pyLower (pathSuffix filename)) = some m.mime_type) := by
  constructor
  · by_cases hmem : pyLower (pathSuffix filename) ∈ allowed_extensions <;>
      simp [saveAsset, hmem, Except.isOk, Except.toBool]
  · intro m hm
    by_cases hmem : pyLower (pathSuffix filename) ∈ allowed_extensions
    · simp only [saveAsset, if_pos hmem] at hm
      injection hm with hm
      have hmime : m.mime_type = getMimeType (pyLower (pathSuffix filename)) := by
        rw [← hm]
      rw [hmime]
      have hcases := hmem
      simp [allowed_extensions] at hcases
      rcases hcases with h | h | h | h | h | h <;> rw [h] <;> decide
    · simp [saveAsset, hmem] at hm

set_option maxRecDepth 8000 in
theorem c9_witness :
    saveAsset dt0 [1, 2] "logo.PNG" "image" = .ok pngMeta ∧
    mime_types.lookup (pyLower (pathSuffix "logo.PNG")) = some pngMeta.mime_type :=
  ⟨by decide, (c9_save_asset_validation dt0 [1, 2] "logo.PNG" "image").2 pngMeta (by decide)⟩

/-! ### C4 — generation result contract on failure -/

/-- **C4 amended**: `generate_document` returns
`DocumentGenerationResponse(success=false)` with no storage path and a
descriptive message on any pipeline failure, and `success=true` only
when the PDF was produced and persisted; `generate_invoice`, however,
translates pipeline failures into a raised `HTTPException(500, ...)`
rather than returning a generation result. -/
theorem c4_error_contract (env : GenEnv) (ienv : InvEnv) :
    (env.template_found = true → ∀ e, env.gen = .error e →
      generateDocument env =
        .ok ⟨false, none, none, some ("Document generation failed: " ++ e), none⟩) ∧
    (env.template_found = true → ∀ b e, env.gen = .ok b → env.save b = .error e →
      generateDocument env =
        .ok ⟨false, none, none, some ("Document generation failed: " ++ e), none⟩) ∧
    (∀ r, generateDocument env = .ok r → r.success = true →
      ∃ b p, env.gen = .ok b ∧ env.save b = .ok p ∧
        r = ⟨true, some p, some b.length, some "Document generated successfully", none⟩) ∧
    (∀ oid e, ienv.order = some (oid, none) → ienv.gen = .error e →
      generateInvoice ienv = .error ⟨500, "PDF generation failed: " ++ e⟩) ∧
    (∀ oid b e, ienv.order = some (oid, none) → ienv.gen = .ok b → ienv.save b = .error e →
      generateInvoice ienv = .error ⟨500, "PDF generation failed: " ++ e⟩) := by
  refine ⟨?_, ?_, ?_, ?_, ?_⟩
  · intro ht e hg
    simp [generateDocument, ht, hg]
  · intro ht b e hg hs
    simp [generateDocument, ht, hg, hs]
  · intro r hr hs
    cases hfound : env.template_found
    · simp [generateDocument, hfound] at hr
    cases hg : env.gen with
    | error e =>
        simp [generateDocument, hfound, hg] at hr
        rw [← hr] at hs
        simp at hs
    | ok b =>
        cases hsv : env.save b with
        | error e =>
            simp [generateDocument, hfound, hg, hsv] at hr
            rw [← hr] at hs
            simp at hs
        | ok p =>
            refine ⟨b, p, rfl, hsv, ?_⟩
            simp [generateDocument, hfound, hg, hsv] at hr
            exact hr.symm
  · intro oid e ho hg
    simp [generateInvoice, ho, hg]
  · intro oid b e ho hg hs
    simp [generateInvoice, ho, hg, hs]

/-- An invoice-generation request whose PDF pipeline fails. -/
def invFailEnv : InvEnv :=
  { order := some (7, none), gen := .error "boom", save := fun _ => .ok "p" }

/-- A document-generation request whose PDF pipeline fails. -/
def genFailEnv : GenEnv :=
  { template_found := true, gen := .error "boom", save := fun _ => .ok "path" }

/-- A fully successful document-generation request. -/
def genOkEnv : GenEnv :=
  { template_found := true, gen := .ok [1, 2], save := fun _ => .ok "uploads/documents/x.pdf" }

theorem c4_witness :
    (genFailEnv.template_found = true ∧ genFailEnv.gen = .error "boom" ∧
      invFailEnv.order = some (7, none) ∧ invFailEnv.gen = .error "boom" ∧
      generateDocument genOkEnv =
        .ok ⟨true, some "uploads/documents/x.pdf", some 2,
          some "Document generated successfully", none⟩) ∧
    generateDocument genFailEnv =
      .ok ⟨false, none, none, some ("Document generation failed: " ++ "boom"), none⟩ ∧
    (∃ b p, genOkEnv.gen = .ok b ∧ genOkEnv.save b = .ok p ∧
      (⟨true, some "uploads/documents/x.pdf", some 2, some "Document generated successfully",
          none⟩ : DocumentGenerationResponse) =
        ⟨true, some p, some b.length, some "Document generated successfully", none⟩) ∧
    generateInvoice invFailEnv = .error ⟨500, "PDF generation failed: " ++ "boom"⟩ :=
  ⟨⟨rfl, rfl, rfl, rfl, rfl⟩,
    (c4_error_contract genFailEnv invFailEnv).1 rfl "boom" rfl,
    (c4_error_contract genOkEnv invFailEnv).2.2.1 _ rfl rfl,
    (c4_error_contract genFailEnv invFailEnv).2.2.2.1 7 "boom" rfl rfl⟩

/-- **C4 counterexample**: when the pipeline fails inside
`generate_invoice`, the caller does not receive any generation result
value at all — the endpoint raises `HTTPException(500, ...)` — so the
success-flag contract is not "returned to every caller regardless of
failure point". -/
theorem c4_counterexample :
    generateInvoice invFailEnv = .error ⟨500, "PDF generation failed: boom"⟩ ∧
    ∀ inv : InvoiceRec, generateInvoice invFailEnv ≠ .ok inv := by
  refine ⟨rfl, ?_⟩
  intro inv h
  rw [show generateInvoice invFailEnv = .error ⟨500, "PDF generation failed: boom"⟩ from rfl]
    at h
  exact Except.noConfusion h

end InvoiceDoc
